import Mathlib

set_option maxRecDepth 100000

/-!
Verification development for the BSSOD dump-parser core
(`src/parser-tool/src/parser/`).

A dump file is modelled as its byte content, a `List Nat` with every
element intended below 256; file offsets are `Nat`.  Reading `k` bytes at
offset `off` from an open Python file handle (`seek(off); read(k)`)
returns the bytes from `off` up to `min (off + k) size`, which is
`(data.drop off).take k` here.  All integers parsed from the file are
little-endian unsigned, modelled as `Nat` (values are bounded by the byte
width of the read, so no modular wrap can occur).

Functions are named after the source functions they embed; the leading
underscore of Python private methods is dropped and a short prefix names
the defining class when two classes define methods of the same name
(`st_` = `StackTraceParser`, `dr_` = `DumpFileReader`,
`drv_` = `DriverListExtractor`).
-/

/-- `seek(offset); read(size)` on a file whose content is `data`:
the slice `data[offset : offset + size]`, truncated at end of file. -/
def fileSlice (data : List Nat) (offset size : Nat) : List Nat :=
  (data.drop offset).take size

/-- Little-endian value of a byte string, as `struct.unpack` with format
`<` reads it: the first byte is least significant. -/
def leValue : List Nat → Nat
  | [] => 0
  | b :: bs => b + 256 * leValue bs

/-! ## Checked readers (`stack_trace.py` and `drivers.py`)

`StackTraceParser._read_uint64 / _read_uint32` and
`DriverListExtractor._read_uint64 / _read_uint32 / _read_uint16` all read
the slice, return 0 when fewer bytes than the requested width came back,
and unpack little-endian otherwise.  The two classes repeat the same
code; one definition per width embeds both. -/

/-- Shared body of the checked fixed-width readers. -/
def readChecked (width : Nat) (data : List Nat) (offset : Nat) : Nat :=
  let s := fileSlice data offset width
  if s.length < width then 0 else leValue s

/-- `StackTraceParser._read_uint64`. -/
def st_read_uint64 (data : List Nat) (offset : Nat) : Nat :=
  readChecked 8 data offset

/-- `StackTraceParser._read_uint32`. -/
def st_read_uint32 (data : List Nat) (offset : Nat) : Nat :=
  readChecked 4 data offset

/-- `DriverListExtractor._read_uint64`. -/
def drv_read_uint64 (data : List Nat) (offset : Nat) : Nat :=
  readChecked 8 data offset

/-- `DriverListExtractor._read_uint32`. -/
def drv_read_uint32 (data : List Nat) (offset : Nat) : Nat :=
  readChecked 4 data offset

/-- `DriverListExtractor._read_uint16`. -/
def drv_read_uint16 (data : List Nat) (offset : Nat) : Nat :=
  readChecked 2 data offset

/-! ## Unchecked readers (`dump_reader.py`)

`DumpFileReader._read_uint16 / _read_uint32 / _read_uint64` call
`struct.unpack` on the slice with no length check; `struct.unpack`
raises `struct.error` when the buffer is not exactly the requested
width.  That failure is modelled as `Except.error PErr.structError`. -/

/-- Error kinds the header decoder can raise: `ValueError` for a bad
signature, `struct.error` for a short `struct.unpack` buffer. -/
inductive PErr where
  | invalidSignature
  | structError
deriving DecidableEq, Repr

/-- Shared body of the unchecked fixed-width readers of `DumpFileReader`. -/
def dr_readExact (width : Nat) (data : List Nat) (offset : Nat) :
    Except PErr Nat :=
  let s := fileSlice data offset width
  if s.length = width then .ok (leValue s) else .error .structError

/-- `DumpFileReader._read_uint16`. -/
def dr_read_uint16 (data : List Nat) (offset : Nat) : Except PErr Nat :=
  dr_readExact 2 data offset

/-- `DumpFileReader._read_uint32`. -/
def dr_read_uint32 (data : List Nat) (offset : Nat) : Except PErr Nat :=
  dr_readExact 4 data offset

/-- `DumpFileReader._read_uint64`. -/
def dr_read_uint64 (data : List Nat) (offset : Nat) : Except PErr Nat :=
  dr_readExact 8 data offset

/-! ## `stack_trace.py` -/

/-- Context record offset constants from `stack_trace.py`. -/
def CONTEXT_FLAGS_OFFSET : Nat := 0x30
def CONTEXT_RAX_OFFSET : Nat := 0x78
def CONTEXT_RCX_OFFSET : Nat := 0x80
def CONTEXT_RDX_OFFSET : Nat := 0x88
def CONTEXT_RBX_OFFSET : Nat := 0x90
def CONTEXT_RSP_OFFSET : Nat := 0x98
def CONTEXT_RBP_OFFSET : Nat := 0xA0
def CONTEXT_RSI_OFFSET : Nat := 0xA8
def CONTEXT_RDI_OFFSET : Nat := 0xB0
def CONTEXT_R8_OFFSET : Nat := 0xB8
def CONTEXT_R9_OFFSET : Nat := 0xC0
def CONTEXT_R10_OFFSET : Nat := 0xC8
def CONTEXT_R11_OFFSET : Nat := 0xD0
def CONTEXT_R12_OFFSET : Nat := 0xD8
def CONTEXT_R13_OFFSET : Nat := 0xE0
def CONTEXT_R14_OFFSET : Nat := 0xE8
def CONTEXT_R15_OFFSET : Nat := 0xF0
def CONTEXT_RIP_OFFSET : Nat := 0xF8

/-- Exception record field offsets from `stack_trace.py`. -/
def EXCEPTION_CODE_OFFSET : Nat := 0x00
def EXCEPTION_FLAGS_OFFSET : Nat := 0x04
def EXCEPTION_ADDRESS_OFFSET : Nat := 0x10
def EXCEPTION_NUM_PARAMS_OFFSET : Nat := 0x18
def EXCEPTION_PARAMS_OFFSET : Nat := 0x20

/-- `StackTraceParser.EXCEPTION_RECORD_OFFSET_IN_HEADER` (class constant,
used for every dump variant). -/
def EXCEPTION_RECORD_OFFSET_IN_HEADER : Nat := 0x348

/-- `StackTraceParser.CONTEXT_RECORD_OFFSET_IN_HEADER`. -/
def CONTEXT_RECORD_OFFSET_IN_HEADER : Nat := 0x408

/-- `RegisterState` dataclass. -/
structure RegisterState where
  rax : Nat := 0
  rbx : Nat := 0
  rcx : Nat := 0
  rdx : Nat := 0
  rsi : Nat := 0
  rdi : Nat := 0
  rsp : Nat := 0
  rbp : Nat := 0
  rip : Nat := 0
  r8 : Nat := 0
  r9 : Nat := 0
  r10 : Nat := 0
  r11 : Nat := 0
  r12 : Nat := 0
  r13 : Nat := 0
  r14 : Nat := 0
  r15 : Nat := 0
  context_flags : Nat := 0
deriving DecidableEq, Repr

/-- `ExceptionInfo` dataclass. -/
structure ExceptionInfo where
  exception_code : Nat := 0
  exception_flags : Nat := 0
  exception_address : Nat := 0
  num_parameters : Nat := 0
  parameters : List Nat := []
deriving DecidableEq, Repr

/-- `StackTrace` dataclass.  `raw_frames` is omitted: it is always the
empty list in `parse_stack_trace` (`raw_frames = []`) and carries no
information. -/
structure StackTrace where
  registers : Option RegisterState := none
  exception : Option ExceptionInfo := none
  stack_pointer : Nat := 0
  instruction_pointer : Nat := 0
  has_context : Bool := false
  has_exception : Bool := false
  note : String := ""
deriving DecidableEq, Repr

/-- `StackTraceParser.parse_registers`.  The Python body only performs
checked reads, which cannot raise, so the `except` branch returning
`None` is unreachable and the result is always a populated record. -/
def parse_registers (data : List Nat) : RegisterState :=
  let ctx_base := CONTEXT_RECORD_OFFSET_IN_HEADER
  { context_flags := st_read_uint32 data (ctx_base + CONTEXT_FLAGS_OFFSET)
    rax := st_read_uint64 data (ctx_base + CONTEXT_RAX_OFFSET)
    rcx := st_read_uint64 data (ctx_base + CONTEXT_RCX_OFFSET)
    rdx := st_read_uint64 data (ctx_base + CONTEXT_RDX_OFFSET)
    rbx := st_read_uint64 data (ctx_base + CONTEXT_RBX_OFFSET)
    rsp := st_read_uint64 data (ctx_base + CONTEXT_RSP_OFFSET)
    rbp := st_read_uint64 data (ctx_base + CONTEXT_RBP_OFFSET)
    rsi := st_read_uint64 data (ctx_base + CONTEXT_RSI_OFFSET)
    rdi := st_read_uint64 data (ctx_base + CONTEXT_RDI_OFFSET)
    r8 := st_read_uint64 data (ctx_base + CONTEXT_R8_OFFSET)
    r9 := st_read_uint64 data (ctx_base + CONTEXT_R9_OFFSET)
    r10 := st_read_uint64 data (ctx_base + CONTEXT_R10_OFFSET)
    r11 := st_read_uint64 data (ctx_base + CONTEXT_R11_OFFSET)
    r12 := st_read_uint64 data (ctx_base + CONTEXT_R12_OFFSET)
    r13 := st_read_uint64 data (ctx_base + CONTEXT_R13_OFFSET)
    r14 := st_read_uint64 data (ctx_base + CONTEXT_R14_OFFSET)
    r15 := st_read_uint64 data (ctx_base + CONTEXT_R15_OFFSET)
    rip := st_read_uint64 data (ctx_base + CONTEXT_RIP_OFFSET) }

/-- `StackTraceParser.parse_exception`.  The reads cannot raise, so the
`except` branch is unreachable.  Parameters are read only when
`0 < num_params ≤ 15`; otherwise the list stays empty while
`num_parameters` keeps the raw count word. -/
def parse_exception (data : List Nat) : ExceptionInfo :=
  let exc_base := EXCEPTION_RECORD_OFFSET_IN_HEADER
  let exception_code := st_read_uint32 data (exc_base + EXCEPTION_CODE_OFFSET)
  let exception_flags := st_read_uint32 data (exc_base + EXCEPTION_FLAGS_OFFSET)
  let exception_address := st_read_uint64 data (exc_base + EXCEPTION_ADDRESS_OFFSET)
  let num_params := st_read_uint32 data (exc_base + EXCEPTION_NUM_PARAMS_OFFSET)
  let params :=
    if 0 < num_params ∧ num_params ≤ 15 then
      (List.range num_params).map
        (fun i => st_read_uint64 data (exc_base + EXCEPTION_PARAMS_OFFSET + i * 8))
    else []
  { exception_code := exception_code
    exception_flags := exception_flags
    exception_address := exception_address
    num_parameters := num_params
    parameters := params }

/-- `StackTraceParser.parse_stack_trace`. -/
def parse_stack_trace (data : List Nat) : StackTrace :=
  let registers := parse_registers data
  let exception := parse_exception data
  let has_context := registers.context_flags ≠ 0
  let has_exception := exception.exception_code ≠ 0
  let stack_ptr := registers.rsp
  let instr_ptr := registers.rip
  let note :=
    if ¬has_context ∧ ¬has_exception then
      "Context record not found or invalid. " ++
        "No exception record. This may be a live dump or the exception was not captured."
    else if ¬has_context ∧ has_exception then
      "Full stack trace requires debug symbols (PDBs). Raw register state captured."
    else if has_context ∧ ¬has_exception then
      "No exception record. This may be a live dump or the exception was not captured."
    else
      "Full stack trace requires debug symbols (PDBs). Raw register state captured."
  { registers := if has_context then some registers else none
    exception := if has_exception then some exception else none
    stack_pointer := stack_ptr
    instruction_pointer := instr_ptr
    has_context := has_context
    has_exception := has_exception
    note := note }

/-! ## Hexadecimal rendering

Python renders all addresses and codes with format specs such as
`08X` / `016X`.  For the unsigned values this code produces (u32 / u64
reads, so below `16^8` / `16^16`) that is exactly the `w`
least-significant uppercase hex digits, zero padded, which is what
`hexPad` computes. -/

/-- Uppercase hexadecimal digit. -/
def hexDigit (n : Nat) : Char :=
  if n < 10 then Char.ofNat (48 + n) else Char.ofNat (55 + n)

/-- The `w` least-significant hex digits of `n`, most significant first. -/
def hexPadChars (n : Nat) : Nat → List Char
  | 0 => []
  | w + 1 => hexPadChars (n / 16) w ++ [hexDigit (n % 16)]

/-- Python `f-string` rendering with format `0{w}X`, for values below
`16^w`. -/
def hexPad (w n : Nat) : String :=
  String.mk (hexPadChars n w)

/-! ## `utils/constants.py` (not in the repository snapshot)

Modelled from the spec: `utils/constants.py` (`BUGCHECK_CODES`,
`get_bugcheck_name`, `format_bugcheck_code`) is not under `src/`; only
its callers are.  The spec defines `format_code` as the canonical
ten-character form (`0x` + eight uppercase hex digits) and
`code → name` as an exact table lookup whose misses return
`"UNKNOWN_BUGCHECK_" ++ canonical form`; the table entries below are the
ones the spec names (`MEMORY_MANAGEMENT` for 0x1A,
`DRIVER_IRQL_NOT_LESS_OR_EQUAL` for 0xD1). -/

/-- Modelled from the spec: the name table of `utils/constants.py`,
restricted to the entries the spec states. -/
def BUGCHECK_CODES : List (Nat × String) :=
  [(0x0000001A, "MEMORY_MANAGEMENT"),
   (0x000000D1, "DRIVER_IRQL_NOT_LESS_OR_EQUAL")]

/-- Modelled from the spec: `format_bugcheck_code`, the canonical
ten-character code form. -/
def format_bugcheck_code (code : Nat) : String :=
  "0x" ++ hexPad 8 code

/-- Modelled from the spec: `get_bugcheck_name`, exact lookup with the
generic fallback on a miss. -/
def get_bugcheck_name (code : Nat) : String :=
  match BUGCHECK_CODES.lookup code with
  | some name => name
  | none => "UNKNOWN_BUGCHECK_" ++ format_bugcheck_code code

/-! ## `dump_reader.py` -/

/-- `DUMP_SIGNATURE_64 = b"PAGEDU64"`. -/
def DUMP_SIGNATURE_64 : List Nat := [0x50, 0x41, 0x47, 0x45, 0x44, 0x55, 0x36, 0x34]

/-- `DUMP_SIGNATURE_32 = b"PAGEDUMP"`. -/
def DUMP_SIGNATURE_32 : List Nat := [0x50, 0x41, 0x47, 0x45, 0x44, 0x55, 0x4D, 0x50]

/-- `MachineType(raw)` succeeds only for the enumerated values; the
`except ValueError` branch maps everything else to `UNKNOWN = 0`. -/
def machineTypeOf (raw : Nat) : Nat :=
  if raw = 0 ∨ raw = 0x014C ∨ raw = 0x8664 ∨ raw = 0x01C0 ∨ raw = 0xAA64
  then raw else 0

/-- `DumpType(raw)` succeeds only for 0..5; anything else becomes
`UNKNOWN = 0`. -/
def dumpTypeOf (raw : Nat) : Nat :=
  if raw ≤ 5 then raw else 0

/-- `bytes.decode("ascii", errors="replace")`: bytes below 0x80 decode to
themselves, anything else becomes U+FFFD. -/
def decodeAsciiReplace (bs : List Nat) : String :=
  String.mk (bs.map (fun b => if b < 0x80 then Char.ofNat b else Char.ofNat 0xFFFD))

/-- Header structure offsets of `DumpFileReader` (64-bit layout). -/
def OFFSET_MAJOR_VERSION : Nat := 0x0008
def OFFSET_MINOR_VERSION : Nat := 0x000C
def OFFSET_MACHINE_IMAGE_TYPE : Nat := 0x0030
def OFFSET_NUMBER_PROCESSORS : Nat := 0x0034
def OFFSET_BUGCHECK_CODE : Nat := 0x0038
def OFFSET_BUGCHECK_PARAM1 : Nat := 0x0040
def OFFSET_BUGCHECK_PARAM2 : Nat := 0x0048
def OFFSET_BUGCHECK_PARAM3 : Nat := 0x0050
def OFFSET_BUGCHECK_PARAM4 : Nat := 0x0058
def OFFSET_DUMP_TYPE : Nat := 0x0F98
def OFFSET_SYSTEM_TIME : Nat := 0x0FA0
def OFFSET_REQUIRED_DUMP_SPACE : Nat := 0x1028

/-- `DumpHeader` dataclass.  `machine_type` and `dump_type` store the
mapped enumeration value (UNKNOWN = 0 for unrecognized encodings). -/
structure DumpHeader where
  signature : String
  valid_dump : String
  major_version : Nat
  minor_version : Nat
  machine_type : Nat
  number_processors : Nat
  bugcheck_code : Nat
  bugcheck_param1 : Nat
  bugcheck_param2 : Nat
  bugcheck_param3 : Nat
  bugcheck_param4 : Nat
  dump_type : Nat
  required_dump_space : Nat
  system_time : Nat
  is_64bit : Bool
  physical_memory_block_offset : Nat
  exception_record_offset : Nat
deriving DecidableEq, Repr

/-- `DumpFileReader.validate_signature`: compare the first eight bytes
against the two signatures; `none` when neither matches, otherwise the
recorded `_is_64bit` flag. -/
def validate_signature (data : List Nat) : Option Bool :=
  let sig := fileSlice data 0 8
  if sig = DUMP_SIGNATURE_64 then some true
  else if sig = DUMP_SIGNATURE_32 then some false
  else none

/-- Body of `DumpFileReader.parse_header` after the signature has been
validated.  Each `_read_uintN` may raise `struct.error` on a short file;
only the `required_dump_space` read is wrapped in `try/except`, falling
back to the on-disk file size (`data.length`). -/
def parse_header_body (data : List Nat) (is64 : Bool) : Except PErr DumpHeader := do
  let signature := decodeAsciiReplace (fileSlice data 0 4)
  let valid_dump := decodeAsciiReplace (fileSlice data 4 4)
  let major_version ← dr_read_uint32 data OFFSET_MAJOR_VERSION
  let minor_version ← dr_read_uint32 data OFFSET_MINOR_VERSION
  let machine_type_raw ← dr_read_uint32 data OFFSET_MACHINE_IMAGE_TYPE
  let number_processors ← dr_read_uint32 data OFFSET_NUMBER_PROCESSORS
  let bugcheck_code ← dr_read_uint32 data OFFSET_BUGCHECK_CODE
  let bugcheck_param1 ←
    if is64 then dr_read_uint64 data OFFSET_BUGCHECK_PARAM1
    else dr_read_uint32 data 0x001C
  let bugcheck_param2 ←
    if is64 then dr_read_uint64 data OFFSET_BUGCHECK_PARAM2
    else dr_read_uint32 data 0x0020
  let bugcheck_param3 ←
    if is64 then dr_read_uint64 data OFFSET_BUGCHECK_PARAM3
    else dr_read_uint32 data 0x0024
  let bugcheck_param4 ←
    if is64 then dr_read_uint64 data OFFSET_BUGCHECK_PARAM4
    else dr_read_uint32 data 0x0028
  let dump_type_raw ← dr_read_uint32 data OFFSET_DUMP_TYPE
  let system_time ← dr_read_uint64 data OFFSET_SYSTEM_TIME
  let required_dump_space :=
    match dr_read_uint64 data OFFSET_REQUIRED_DUMP_SPACE with
    | .ok v => v
    | .error _ => data.length
  pure
    { signature := signature
      valid_dump := valid_dump
      major_version := major_version
      minor_version := minor_version
      machine_type := machineTypeOf machine_type_raw
      number_processors := number_processors
      bugcheck_code := bugcheck_code
      bugcheck_param1 := bugcheck_param1
      bugcheck_param2 := bugcheck_param2
      bugcheck_param3 := bugcheck_param3
      bugcheck_param4 := bugcheck_param4
      dump_type := dumpTypeOf dump_type_raw
      required_dump_space := required_dump_space
      system_time := system_time
      is_64bit := is64
      physical_memory_block_offset := if is64 then 0x0088 else 0x0064
      exception_record_offset := if is64 then 0x0F00 else 0x07D0 }

/-- `DumpFileReader.parse_header`: `ValueError` (`invalidSignature`) when
the signature validation fails, otherwise the positional field reads. -/
def parse_header (data : List Nat) : Except PErr DumpHeader :=
  match validate_signature data with
  | some is64 => parse_header_body data is64
  | none => .error .invalidSignature

/-! ## `bugcheck.py`

Tables are embedded as association lists in source order (Python dicts
iterate in insertion order, which matters for `get_category`).  Two
description strings contain an English contraction; it is written out
("was not" for "wasn~t") because this file avoids the apostrophe
character, which no claim inspects. -/

/-- `BUGCHECK_PARAM_DESCRIPTIONS`. -/
def BUGCHECK_PARAM_DESCRIPTIONS : List (Nat × List (Nat × String)) :=
  [(0x0000001A,
    [(1, "Memory management subtype code"),
     (2, "Address that caused the problem"),
     (3, "PFN of the corrupted page (if applicable)"),
     (4, "Reserved / Additional context")]),
   (0x0000001E,
    [(1, "Exception code (NTSTATUS)"),
     (2, "Address where exception occurred"),
     (3, "First exception parameter"),
     (4, "Second exception parameter")]),
   (0x00000050,
    [(1, "Address referenced causing the fault"),
     (2, "0 = read, 1 = write, 2 = execute, 8 = execute"),
     (3, "Address that referenced the bad memory"),
     (4, "Type of read: 0 = read, 2 = execute")]),
   (0x0000007E,
    [(1, "Exception code (NTSTATUS)"),
     (2, "Address where exception occurred"),
     (3, "Exception record address"),
     (4, "Context record address")]),
   (0x0000007F,
    [(1, "Trap number (x86/x64 processor exception)"),
     (2, "Reserved"), (3, "Reserved"), (4, "Reserved")]),
   (0x0000009F,
    [(1, "Subtype of power failure"),
     (2, "Address of the device object"),
     (3, "Address of the driver object"),
     (4, "Reserved (depends on subtype)")]),
   (0x000000A0,
    [(1, "Subtype of internal power error"),
     (2, "Additional info (subtype-dependent)"),
     (3, "Additional info (subtype-dependent)"),
     (4, "Additional info (subtype-dependent)")]),
   (0x000000D1,
    [(1, "Memory address referenced"),
     (2, "IRQL at time of reference"),
     (3, "0 = read, 1 = write"),
     (4, "Address of instruction that referenced memory")]),
   (0x000000EF,
    [(1, "Process object address"),
     (2, "If 0 = process terminated, if 1 = thread terminated"),
     (3, "Reserved"), (4, "Reserved")]),
   (0x00000116,
    [(1, "Pointer to internal TDR recovery context"),
     (2, "Pointer to responsible device driver module"),
     (3, "Error code of last failed operation"),
     (4, "Internal context dependent data")]),
   (0x00000139,
    [(1, "Security cookie failure type"),
     (2, "Address of trap frame / exception record"),
     (3, "Address of context record"),
     (4, "Reserved")]),
   (0x000001CA,
    [(1, "Timeout count"),
     (2, "Process object (if applicable)"),
     (3, "Thread object (if applicable)"),
     (4, "Additional context")]),
   (0x00000154,
    [(1, "Exception record address"),
     (2, "Context record address"),
     (3, "Exception code"),
     (4, "Reserved")]),
   (0x000000C2,
    [(1, "Type of pool corruption"),
     (2, "Depends on parameter 1"),
     (3, "Depends on parameter 1"),
     (4, "Depends on parameter 1")]),
   (0x000000C4,
    [(1, "Subtype of driver verifier violation"),
     (2, "Address of driver with the violation"),
     (3, "Violation-specific parameter"),
     (4, "Violation-specific parameter")]),
   (0x000000FC,
    [(1, "Address being executed"),
     (2, "PTE contents"),
     (3, "Reserved"), (4, "Reserved")])]

/-- `MEMORY_MANAGEMENT_SUBTYPES`. -/
def MEMORY_MANAGEMENT_SUBTYPES : List (Nat × String) :=
  [(0x00041284, "A page that should have been filled with zeros was not."),
   (0x00041285, "A PTE has been corrupted."),
   (0x00041286, "A page table page has been corrupted."),
   (0x00041287, "A PFN list head has been corrupted."),
   (0x00041790, "The page frame number list is corrupt."),
   (0x00041792, "A PTE or the PFN is corrupted."),
   (0x00041793, "A page table has been corrupted."),
   (0x00041794, "An illegal PFN was used."),
   (0x00061940, "An allocation that should have been pageable was not."),
   (0x00061941, "A free happened on bad pool."),
   (0x00061946, "A corrupted page table was detected.")]

/-- `TRAP_NUMBERS`. -/
def TRAP_NUMBERS : List (Nat × String) :=
  [(0x00, "Divide Error"),
   (0x01, "Debug Exception"),
   (0x02, "NMI Interrupt"),
   (0x03, "Breakpoint"),
   (0x04, "Overflow"),
   (0x05, "Bound Range Exceeded"),
   (0x06, "Invalid Opcode"),
   (0x07, "Device Not Available (No Math Coprocessor)"),
   (0x08, "Double Fault"),
   (0x09, "Coprocessor Segment Overrun"),
   (0x0A, "Invalid TSS"),
   (0x0B, "Segment Not Present"),
   (0x0C, "Stack Segment Fault"),
   (0x0D, "General Protection Fault"),
   (0x0E, "Page Fault"),
   (0x10, "x87 Floating-Point Error"),
   (0x11, "Alignment Check"),
   (0x12, "Machine Check"),
   (0x13, "SIMD Floating-Point Exception")]

/-- `ParameterAnalysis` dataclass. -/
structure ParameterAnalysis where
  parameter_number : Nat
  raw_value : Nat
  hex_value : String
  description : String
  interpretation : Option String := none
deriving DecidableEq, Repr

/-- `BugcheckAnalysis` dataclass. -/
structure BugcheckAnalysis where
  code : Nat
  code_hex : String
  name : String
  category : String
  description : String
  parameters : List ParameterAnalysis
  recommendations : List String
  likely_causes : List String
  severity : String
deriving DecidableEq, Repr

/-- `BUGCHECK_CATEGORIES`, in dict insertion order. -/
def BUGCHECK_CATEGORIES : List (String × List Nat) :=
  [("Memory Corruption", [0x1A, 0x50, 0x7A, 0xC2, 0xC5, 0xFC]),
   ("Driver Issues", [0xD1, 0xD3, 0xD8, 0xC4, 0x9F, 0x116]),
   ("Hardware Failure", [0x7F, 0x124, 0x9C]),
   ("Process/Thread", [0xEF, 0x139, 0xF4]),
   ("File System", [0x24, 0x77]),
   ("Power Management", [0x9F, 0xA0]),
   ("Security", [0x139]),
   ("Graphics/Display", [0x116, 0x119]),
   ("General Exception", [0x1E, 0x7E, 0x8E])]

/-- `get_category`: first category whose code list contains the code,
else "Other". -/
def get_category (bugcheck_code : Nat) : String :=
  match BUGCHECK_CATEGORIES.find? (fun p => p.2.contains bugcheck_code) with
  | some p => p.1
  | none => "Other"

/-- The `critical` list of `get_severity`. -/
def SEVERITY_CRITICAL : List Nat := [0xEF, 0x139, 0x7F, 0x124, 0x50]

/-- The `high` list of `get_severity`. -/
def SEVERITY_HIGH : List Nat := [0xD1, 0x1A, 0x7E, 0x1E, 0xC4]

/-- `get_severity`. -/
def get_severity (bugcheck_code : Nat) : String :=
  if SEVERITY_CRITICAL.contains bugcheck_code then "Critical"
  else if SEVERITY_HIGH.contains bugcheck_code then "High"
  else "Medium"

/-- The per-code table of `get_likely_causes`. -/
def BUGCHECK_CAUSES : List (Nat × List String) :=
  [(0x0000001A,
    ["Faulty RAM or memory hardware",
     "Corrupted memory due to driver bug",
     "Overclocked memory causing instability",
     "Damaged system files"]),
   (0x0000001E,
    ["Incompatible or buggy driver", "Faulty hardware", "Software conflict"]),
   (0x00000050,
    ["Faulty driver accessing invalid memory",
     "Defective RAM",
     "Antivirus software conflict",
     "Corrupted system files"]),
   (0x0000007E,
    ["System thread generated an unhandled exception",
     "Driver compatibility issue",
     "Corrupted system files"]),
   (0x0000007F,
    ["Hardware failure (memory, CPU)", "Kernel stack overflow", "Driver bug"]),
   (0x0000009F,
    ["Driver failed to complete a power IRP",
     "Incompatible power management driver",
     "Hardware device not responding"]),
   (0x000000D1,
    ["Driver accessing pageable memory at high IRQL",
     "Driver bug (most common)",
     "Faulty driver installation"]),
   (0x000000EF,
    ["Critical system process terminated unexpectedly",
     "Corrupted system files",
     "Failed system update",
     "Hardware failure"]),
   (0x00000116,
    ["Graphics driver failed to respond",
     "Overheating GPU",
     "Outdated graphics drivers",
     "Faulty graphics card"]),
   (0x00000139,
    ["Buffer overflow detected in kernel",
     "Stack corruption",
     "Malware or security compromise"])]

/-- The generic fallback list of `get_likely_causes`. -/
def GENERIC_CAUSES : List String :=
  ["Driver compatibility issue", "Hardware malfunction", "Corrupted system files"]

/-- `get_likely_causes`: `causes.get(code, generic)`. -/
def get_likely_causes (bugcheck_code : Nat) : List String :=
  match BUGCHECK_CAUSES.lookup bugcheck_code with
  | some cs => cs
  | none => GENERIC_CAUSES

/-- The per-code table of `get_recommendations`. -/
def BUGCHECK_RECS : List (Nat × List String) :=
  [(0x0000001A,
    ["Run Windows Memory Diagnostic (mdsched.exe)",
     "Check for driver updates",
     "Run System File Checker (sfc /scannow)",
     "Check for overclocking and reset to defaults"]),
   (0x00000050,
    ["Run Windows Memory Diagnostic",
     "Update all drivers especially graphics and storage",
     "Temporarily disable antivirus to test",
     "Run chkdsk to check disk health"]),
   (0x000000D1,
    ["Update the driver mentioned in the crash",
     "Use Driver Verifier to identify problematic driver",
     "Roll back recent driver updates"]),
   (0x000000EF,
    ["Run System File Checker (sfc /scannow)",
     "Run DISM /Online /Cleanup-Image /RestoreHealth",
     "Check disk health with chkdsk",
     "Consider system restore to earlier point"]),
   (0x00000116,
    ["Update graphics drivers",
     "Check GPU temperature and cooling",
     "Reduce graphics settings in games/apps",
     "Clean GPU and improve ventilation"]),
   (0x00000139,
    ["Scan for malware with Windows Defender",
     "Run System File Checker",
     "Update Windows to latest version"])]

/-- The generic fallback list of `get_recommendations`. -/
def GENERIC_RECS : List String :=
  ["Update all drivers to latest versions",
   "Run System File Checker (sfc /scannow)",
   "Check Windows Event Viewer for more details",
   "Run Windows Memory Diagnostic"]

/-- `get_recommendations`: `recs.get(code, generic)`. -/
def get_recommendations (bugcheck_code : Nat) : List String :=
  match BUGCHECK_RECS.lookup bugcheck_code with
  | some rs => rs
  | none => GENERIC_RECS

/-- `interpret_parameter`. -/
def interpret_parameter (bugcheck_code param_num value : Nat) : Option String :=
  if bugcheck_code = 0x1A ∧ param_num = 1 then
    MEMORY_MANAGEMENT_SUBTYPES.lookup value
  else if bugcheck_code = 0x7F ∧ param_num = 1 then
    TRAP_NUMBERS.lookup value
  else if bugcheck_code = 0x50 ∧ param_num = 2 then
    [(0, "Read operation"), (1, "Write operation"),
     (2, "Execute operation"), (8, "Execute operation")].lookup value
  else if bugcheck_code = 0xD1 ∧ param_num = 3 then
    [(0, "Read operation"), (1, "Write operation")].lookup value
  else
    none

/-- `BugcheckAnalyzer._get_description`.  The two entries written
"was not caught" / "was not handled" stand for the contracted forms in
the source. -/
def bugcheck_get_description (code : Nat) : String :=
  match ([(0x1A, "The memory manager has detected a memory corruption issue."),
          (0x1E, "A kernel-mode program generated an exception that was not caught."),
          (0x50, "The system tried to access invalid memory (page fault)."),
          (0x7E, "A system thread generated an exception that was not handled."),
          (0x7F, "The CPU generated an unexpected trap (processor exception)."),
          (0x9F, "A driver is in an inconsistent or invalid power state."),
          (0xA0, "The power policy manager experienced a fatal error."),
          (0xD1, "A driver accessed paged memory at an improper IRQL level."),
          (0xEF, "A critical system process died unexpectedly."),
          (0x116, "The display driver failed to respond in the allowed time."),
          (0x139, "The kernel detected security violations (buffer overflow/stack corruption)."),
          (0x154, "An unexpected store exception occurred."),
          (0xC2, "A caller with pool responsibility passed bad parameters."),
          (0xC4, "Driver Verifier detected a driver violation."),
          (0xFC, "Attempt to execute non-executable memory.")] :
            List (Nat × String)).lookup code with
  | some d => d
  | none => "System stop error occurred with code " ++ format_bugcheck_code code

/-- `BugcheckAnalyzer._analyze_parameters`: `enumerate(self.params, 1)`. -/
def analyze_parameters (code p1 p2 p3 p4 : Nat) : List ParameterAnalysis :=
  let param_descs := (BUGCHECK_PARAM_DESCRIPTIONS.lookup code).getD []
  ([(1, p1), (2, p2), (3, p3), (4, p4)] : List (Nat × Nat)).map fun iv =>
    { parameter_number := iv.1
      raw_value := iv.2
      hex_value := "0x" ++ hexPad 16 iv.2
      description :=
        match param_descs.lookup iv.1 with
        | some d => d
        | none => "Bugcheck parameter " ++ toString iv.1
      interpretation := interpret_parameter code iv.1 iv.2 }

/-- `BugcheckAnalyzer.analyze` / `analyze_bugcheck`. -/
def analyze_bugcheck (code p1 p2 p3 p4 : Nat) : BugcheckAnalysis :=
  { code := code
    code_hex := format_bugcheck_code code
    name := get_bugcheck_name code
    category := get_category code
    description := bugcheck_get_description code
    parameters := analyze_parameters code p1 p2 p3 p4
    recommendations := get_recommendations code
    likely_causes := get_likely_causes code
    severity := get_severity code }

/-! ## `drivers.py`

Strings that in the source quote the WinDbg `lm` command with apostrophe
characters are written here with the quotes removed (this file avoids
the apostrophe character); no claim inspects those note strings. -/

/-- `KNOWN_PROBLEMATIC_DRIVERS` reputation table, in source order. -/
def KNOWN_PROBLEMATIC_DRIVERS : List (String × String) :=
  [("aswsp.sys", "Avast Software - may cause memory issues"),
   ("aswsnx.sys", "Avast Software - file system filter"),
   ("avgsp.sys", "AVG Antivirus - may cause conflicts"),
   ("bdvedisk.sys", "Bitdefender - virtual disk driver"),
   ("klif.sys", "Kaspersky Lab - file system filter"),
   ("tmusa.sys", "Trend Micro - may cause performance issues"),
   ("tmcomm.sys", "Trend Micro - communication driver"),
   ("nvlddmkm.sys", "NVIDIA Display Driver - common crash source"),
   ("atikmpag.sys", "AMD Display Driver - may cause TDR failures"),
   ("igdkmd64.sys", "Intel Graphics - may conflict with dedicated GPU"),
   ("amdkmdag.sys", "AMD Graphics - kernel mode driver"),
   ("e1c62x64.sys", "Intel Ethernet - may cause network issues"),
   ("rt640x64.sys", "Realtek Ethernet - may cause BSODs"),
   ("nwifi.sys", "Windows WiFi driver - rarely causes issues"),
   ("iaStorV.sys", "Intel Rapid Storage - may cause disk issues"),
   ("storahci.sys", "Standard AHCI driver - check for updates"),
   ("nvme.sys", "NVMe controller driver"),
   ("mrvldev0.sys", "Marvell storage - known for issues"),
   ("cpuz.sys", "CPU-Z driver - can cause issues"),
   ("rtcore64.sys", "MSI Afterburner - known vulnerability"),
   ("asmtxhci.sys", "ASMedia USB 3.0 - may cause USB issues"),
   ("asustp.sys", "ASUS driver - check for updates"),
   ("ene.sys", "MSI/RGB software - known issues"),
   ("wintap.sys", "VPN/Firewall software"),
   ("vboxdrv.sys", "VirtualBox - may conflict with Hyper-V"),
   ("vmci.sys", "VMware - virtualization driver"),
   ("vmx86.sys", "VMware Workstation driver"),
   ("nahimicservice.sys", "Nahimic audio - known for conflicts"),
   ("a2dpsrv.sys", "A-Volute - Sonic Studio, causes issues")]

/-- `KNOWN_SAFE_DRIVERS` set. -/
def KNOWN_SAFE_DRIVERS : List String :=
  ["ntoskrnl.exe", "hal.dll", "ci.dll", "clfs.sys", "tm.sys",
   "ntfs.sys", "fltmgr.sys", "wdf01000.sys", "ksecdd.sys",
   "ndis.sys", "tcpip.sys", "netio.sys", "fwpkclnt.sys",
   "storport.sys", "spaceport.sys", "volmgr.sys", "volmgrx.sys",
   "mountmgr.sys", "partmgr.sys", "disk.sys", "classpnp.sys",
   "acpi.sys", "wmilib.sys", "msrpc.sys", "cng.sys", "ksecpkg.sys"]

/-- `DriverInfo` dataclass (fields `path`, `timestamp`, `version` always
keep their `None` defaults on the string-scan path). -/
structure DriverInfo where
  name : String
  base_address : Nat := 0
  size : Nat := 0
  path : Option String := none
  timestamp : Option Nat := none
  version : Option String := none
  is_microsoft : Bool := false
  is_problematic : Bool := false
  problematic_reason : Option String := none
deriving DecidableEq, Repr

/-- `DriverListResult` dataclass. -/
structure DriverListResult where
  drivers : List DriverInfo
  total_count : Nat
  microsoft_count : Nat
  third_party_count : Nat
  problematic_count : Nat
  problematic_drivers : List DriverInfo
  extraction_method : String
  note : String := ""
deriving DecidableEq, Repr

/-- Python `sub in s` on character lists (substring containment). -/
def charsHasSub (sub : List Char) : List Char → Bool
  | [] => sub.isEmpty
  | c :: rest => (decide (sub.isPrefixOf (c :: rest))) || charsHasSub sub rest

/-- `str.lower()` on one character (ASCII case; the driver names and
paths this code classifies are ASCII).  The core `String.toLower` is
avoided because its byte-position recursion does not reduce in the
kernel. -/
def charToLower (c : Char) : Char :=
  if 65 ≤ c.toNat ∧ c.toNat ≤ 90 then Char.ofNat (c.toNat + 32) else c

/-- `str.lower()`. -/
def strToLower (s : String) : String :=
  String.mk (s.data.map charToLower)

/-- `str.startswith(p)` (list-level semantics of the core
`String.startsWith`, which does not reduce in the kernel). -/
def strStartsWith (s p : String) : Bool :=
  p.data.isPrefixOf s.data

/-- `DriverListExtractor._classify_driver`. -/
def classify_driver (name : String) (path : String := "") :
    Bool × Bool × Option String :=
  let name_lower := strToLower name
  let is_microsoft := KNOWN_SAFE_DRIVERS.contains name_lower
  let is_microsoft :=
    if path ≠ "" then
      let path_lower := strToLower path
      if charsHasSub "\\windows\\system32\\drivers\\".toList path_lower.toList then true
      else if charsHasSub "\\windows\\system32\\".toList path_lower.toList then true
      else is_microsoft
    else is_microsoft
  let reason := KNOWN_PROBLEMATIC_DRIVERS.lookup name_lower
  (is_microsoft, reason.isSome, reason)

/-- The `DriverInfo` built for a recovered name inside
`_extract_drivers_from_strings` (base address and size unknown). -/
def mkScanDriver (name : String) : DriverInfo :=
  let c := classify_driver name
  { name := name
    base_address := 0
    size := 0
    is_microsoft := c.1
    is_problematic := c.2.1
    problematic_reason := c.2.2 }

/-- Printable-ASCII test `0x20 <= b < 0x7F` used by the backward walk. -/
def printableByte (b : Nat) : Bool := decide (0x20 ≤ b) && decide (b < 0x7F)

/-- The bytes `b".sys"`. -/
def SYS_BYTES : List Nat := [0x2E, 0x73, 0x79, 0x73]

/-- The backward walk
`while start > 0 and 0x20 <= data[start] < 0x7F: start -= 1`,
returning the final value of `start` before the `start += 1` step. -/
def backWalk (w : List Nat) : Nat → Nat
  | 0 => 0
  | s + 1 => if printableByte (w.getD (s + 1) 0) then backWalk w s else s + 1

/-- The value of `start` after `start += 1`, for a `.sys` hit at index
`i` (the walk begins at `i - 1`). -/
def nameStart (w : List Nat) (i : Nat) : Nat :=
  backWalk w (i - 1) + 1

/-- `bytes.decode("ascii")`: fails (raises, caught by the scanner) when
any byte is 0x80 or above. -/
def decodeAsciiStrict (bs : List Nat) : Option String :=
  if bs.all (fun b => b < 0x80) then some (String.mk (bs.map Char.ofNat))
  else none

/-- One iteration of the scan loop of
`DriverListExtractor._extract_drivers_from_strings` at index `i`.
`seen_names` always equals the set of names already in the accumulator,
so the accumulator alone is the state. -/
def scanStep (w : List Nat) (drivers : List DriverInfo) (i : Nat) :
    List DriverInfo :=
  if fileSlice w i 4 = SYS_BYTES then
    if 3 ≤ i - nameStart w i then
      match decodeAsciiStrict (fileSlice w (nameStart w i) (i + 4 - nameStart w i)) with
      | some name =>
        if name ≠ "" ∧ ¬(drivers.map (·.name)).contains name ∧
            ¬strStartsWith name "." then
          drivers ++ [mkScanDriver name]
        else drivers
      | none => drivers
    else drivers
  else drivers

/-- `DriverListExtractor._extract_drivers_from_strings`: read the first
8 KiB, then scan `while i < len(header_data) - 100`, incrementing `i`
by one per iteration. -/
def extract_drivers_from_strings (data : List Nat) : List DriverInfo :=
  let header_data := data.take 8192
  (List.range (header_data.length - 100)).foldl (scanStep header_data) []

/-- `DriverListExtractor.extract_drivers` (file already opened). -/
def extract_drivers (data : List Nat) : DriverListResult :=
  let drivers := extract_drivers_from_strings data
  if drivers = [] then
    { drivers := []
      total_count := 0
      microsoft_count := 0
      third_party_count := 0
      problematic_count := 0
      problematic_drivers := []
      extraction_method := "string_scan"
      note := "No drivers found in header. Full driver list requires loading module database from dump which needs virtual address translation. For complete driver info, use the lm command in WinDbg." }
  else
    let microsoft_count := (drivers.filter (·.is_microsoft)).length
    let third_party := drivers.filter (fun d => ¬d.is_microsoft)
    let problematic := drivers.filter (·.is_problematic)
    { drivers := drivers
      total_count := drivers.length
      microsoft_count := microsoft_count
      third_party_count := third_party.length
      problematic_count := problematic.length
      problematic_drivers := problematic
      extraction_method := "string_scan"
      note := "Found " ++ toString drivers.length ++
        " driver references. For complete driver listing with addresses and versions, analyze with WinDbg." }

/-! ## `header.py` -/

/-- `DumpHeader.get_machine_type_name`. -/
def get_machine_type_name (machine_type : Nat) : String :=
  match ([(0x014C, "x86 (32-bit)"), (0x8664, "x64 (64-bit)"),
          (0x01C0, "ARM (32-bit)"), (0xAA64, "ARM64 (64-bit)")] :
           List (Nat × String)).lookup machine_type with
  | some n => n
  | none => "Unknown (" ++ toString machine_type ++ ")"

/-- `DumpHeader.get_dump_type_name`. -/
def get_dump_type_name (dump_type : Nat) : String :=
  match ([(1, "Full Memory Dump"), (2, "Kernel Memory Dump"),
          (3, "Bitmap Dump"), (4, "Small Memory Dump (Minidump)"),
          (5, "Live Dump")] : List (Nat × String)).lookup dump_type with
  | some n => n
  | none => "Unknown (" ++ toString dump_type ++ ")"

/-- `HeaderParser._format_size`.  The source renders `size / 1024**k`
with float format `.2f`; this models it as rounding to hundredths in
exact arithmetic (no claim inspects the rendering). -/
def format_size (size : Nat) : String :=
  let two := fun (num den : Nat) =>
    let h := (num * 100 + den / 2) / den
    toString (h / 100) ++ "." ++ (if h % 100 < 10 then "0" else "") ++ toString (h % 100)
  if 1024 ^ 3 ≤ size then two size (1024 ^ 3) ++ " GB"
  else if 1024 ^ 2 ≤ size then two size (1024 ^ 2) ++ " MB"
  else if 1024 ≤ size then two size 1024 ++ " KB"
  else toString size ++ " bytes"

/-- `SystemInfo` dataclass. -/
structure SystemInfo where
  os_version : String
  architecture : String
  processor_count : Nat
  dump_type : String
  dump_size_bytes : Nat
  dump_size_human : String
  is_64bit : Bool
  crash_time_raw : Nat
deriving DecidableEq, Repr

/-- `CrashSummary` dataclass. -/
structure CrashSummary where
  bugcheck_code : String
  bugcheck_code_int : Nat
  bugcheck_name : String
  parameter1 : String
  parameter2 : String
  parameter3 : String
  parameter4 : String
  file_path : String
  file_name : String
deriving DecidableEq, Repr

/-- `os.path.basename` for the POSIX separator (sufficient for the
paths the claims use). -/
def pathBasename (p : String) : String :=
  (p.splitOn "/").getLastD p

/-- `HeaderParser.get_system_info` on a parsed header. -/
def get_system_info (h : DumpHeader) (file_size : Nat) : SystemInfo :=
  { os_version := "Windows " ++ toString h.major_version ++ "." ++ toString h.minor_version
    architecture := get_machine_type_name h.machine_type
    processor_count := h.number_processors
    dump_type := get_dump_type_name h.dump_type
    dump_size_bytes := file_size
    dump_size_human := format_size file_size
    is_64bit := h.is_64bit
    crash_time_raw := h.system_time }

/-- `HeaderParser.get_crash_summary` on a parsed header. -/
def get_crash_summary (h : DumpHeader) (file_path : String) : CrashSummary :=
  { bugcheck_code := format_bugcheck_code h.bugcheck_code
    bugcheck_code_int := h.bugcheck_code
    bugcheck_name := get_bugcheck_name h.bugcheck_code
    parameter1 := "0x" ++ hexPad 16 h.bugcheck_param1
    parameter2 := "0x" ++ hexPad 16 h.bugcheck_param2
    parameter3 := "0x" ++ hexPad 16 h.bugcheck_param3
    parameter4 := "0x" ++ hexPad 16 h.bugcheck_param4
    file_path := file_path
    file_name := pathBasename file_path }

/-! ## `analyzer.py`

`DumpAnalyzer.analyze` is modelled as a function of the input path and
the optional file content: `none` stands for a path that does not exist
(`os.path.exists` false), `some data` for an existing readable file with
content `data`.  The wall-clock timestamp and duration of
`AnalysisMetadata` are outside the model; the remaining fields are kept.

`parse_dump_header` returns `(None, None)` when `HeaderParser.parse`
catches the `ValueError` of an invalid signature; a `struct.error`
escapes `HeaderParser.parse` (it only catches `FileNotFoundError`,
`ValueError`, `RuntimeError`) and is caught by the orchestrator, which
then appends a different note.  The exact `struct.error` message text is
abbreviated in `NOTE_HEADER_ERROR`. -/

def NOTE_HEADER_FAILED : String := "Failed to parse system info from header"
def NOTE_HEADER_ERROR : String := "Header parsing error: unpack requires a buffer"
def NOTE_STACK_LIMITED : String := "Limited stack trace info available (Live Dump)"
def NOTE_DRIVERS : String :=
  "Driver list requires virtual address translation. Use WinDbg for complete driver list."

/-- `AnalysisMetadata` dataclass (wall-clock fields omitted). -/
structure AnalysisMetadata where
  tool_name : String := "BSSOD Analyzer Parser Tool"
  tool_version : String := "1.0.0"
  dump_file_path : String
  dump_file_name : String
  dump_file_size_bytes : Nat
  parser_notes : List String
deriving DecidableEq, Repr

/-- `CompleteAnalysis` dataclass. -/
structure CompleteAnalysis where
  metadata : AnalysisMetadata
  system_info : Option SystemInfo
  crash_summary : Option CrashSummary
  bugcheck_analysis : Option BugcheckAnalysis
  stack_trace : Option StackTrace
  drivers : Option DriverListResult
  success : Bool := true
  error : Option String := none
deriving DecidableEq, Repr

/-- `DumpAnalyzer.analyze`.  For an existing file the bug-check step
feeds `analyze_bugcheck` with `int(parameterN, 16)`, which recovers the
header parameter values exactly (the parameters are u64/u32 reads, below
`16^16`, and the 16-digit rendering parses back to the same value). -/
def analyze (file : Option (List Nat)) (path : String) : CompleteAnalysis :=
  match file with
  | none =>
    { metadata :=
        { dump_file_path := path
          dump_file_name := pathBasename path
          dump_file_size_bytes := 0
          parser_notes := [] }
      system_info := none
      crash_summary := none
      bugcheck_analysis := none
      stack_trace := none
      drivers := none
      success := false
      error := some ("Dump file not found: " ++ path) }
  | some data =>
    let hdrRes := parse_header data
    let system_info :=
      match hdrRes with
      | .ok h => some (get_system_info h data.length)
      | .error _ => none
    let crash_summary :=
      match hdrRes with
      | .ok h => some (get_crash_summary h path)
      | .error _ => none
    let bugcheck_analysis :=
      match hdrRes with
      | .ok h =>
        some (analyze_bugcheck h.bugcheck_code
          h.bugcheck_param1 h.bugcheck_param2 h.bugcheck_param3 h.bugcheck_param4)
      | .error _ => none
    let stack_trace := parse_stack_trace data
    let drivers := extract_drivers data
    let header_notes :=
      match hdrRes with
      | .ok _ => []
      | .error .invalidSignature => [NOTE_HEADER_FAILED]
      | .error .structError => [NOTE_HEADER_ERROR]
    let stack_notes :=
      if stack_trace.has_context = false ∧ stack_trace.has_exception = false
      then [NOTE_STACK_LIMITED] else []
    let driver_notes :=
      if drivers.total_count = 0 then [NOTE_DRIVERS] else []
    { metadata :=
        { dump_file_path := path
          dump_file_name := pathBasename path
          dump_file_size_bytes := data.length
          parser_notes := header_notes ++ stack_notes ++ driver_notes }
      system_info := system_info
      crash_summary := crash_summary
      bugcheck_analysis := bugcheck_analysis
      stack_trace := some stack_trace
      drivers := some drivers
      success := true
      error := none }

/-- `analyze_dump(dump_path, create_zip)`: the analysis together with
whether an archive file was written (`create_zip and analysis.success`);
the archive content itself is handled by `create_analysis_zip` and not
modelled beyond the emission decision. -/
def analyze_dump (file : Option (List Nat)) (path : String)
    (create_zip : Bool := true) : CompleteAnalysis × Bool :=
  let analysis := analyze file path
  (analysis, create_zip && analysis.success)

/-! ## Concrete inputs used by counterexamples and witnesses -/

/-- 868-byte file: exception code 1 at 0x348, raw parameter count 16 at
0x360, everything else zero. -/
def dataBigCount : List Nat :=
  (List.range 868).map fun i => if i = 0x348 then 1 else if i = 0x360 then 16 else 0

/-- 888-byte file: exception code 5, parameter count 2, parameters 7 and
9 at 0x368 / 0x370. -/
def dataTwoParams : List Nat :=
  (List.range 888).map fun i =>
    if i = 0x348 then 5 else if i = 0x360 then 2
    else if i = 0x368 then 7 else if i = 0x370 then 9 else 0

/-- 4008-byte file starting with the 64-bit signature `PAGEDU64`,
zero elsewhere (just long enough for every unguarded header read). -/
def data64 : List Nat :=
  (List.range 4008).map fun i => (DUMP_SIGNATURE_64 ++ List.replicate 4000 0).getD i 0

/-- 1192-byte file: context flags word at 0x438 is zero while the RSP
word at 0x4A0 is 0x42. -/
def dataZeroFlags : List Nat :=
  (List.range 1192).map fun i => if i = 0x4A0 then 0x42 else 0

/-- The eight bytes `notadump`: an existing readable file with neither
signature. -/
def dataNotADump : List Nat := [0x6E, 0x6F, 0x74, 0x61, 0x64, 0x75, 0x6D, 0x70]

/-- 104-byte file containing `abc.sys` at offsets 1..7 (so `.sys` begins
at offset 4 = file length - 100), zero elsewhere. -/
def dataSysAtEnd : List Nat :=
  (List.range 104).map fun i =>
    if i = 1 then 0x61 else if i = 2 then 0x62 else if i = 3 then 0x63
    else if i = 4 then 0x2E else if i = 5 then 0x73 else if i = 6 then 0x79
    else if i = 7 then 0x73 else 0

/-- 110-byte file containing `nvlddmkm.sys` at offsets 1..12 (a zero
byte in front), zero elsewhere. -/
def dataNvidia : List Nat :=
  (List.range 110).map fun i =>
    ([0, 0x6E, 0x76, 0x6C, 0x64, 0x64, 0x6D, 0x6B, 0x6D,
      0x2E, 0x73, 0x79, 0x73] : List Nat).getD i 0

/-! ## Helper lemmas -/

/-- Length of a bounded file slice. -/
theorem fileSlice_length (data : List Nat) (offset size : Nat) :
    (fileSlice data offset size).length = min size (data.length - offset) := by
  simp [fileSlice]

/-- A checked reader returns 0 on a short slice. -/
theorem readChecked_short (width : Nat) (data : List Nat) (offset : Nat)
    (hw : 0 < width) (h : data.length < offset + width) :
    readChecked width data offset = 0 := by
  have hl : (fileSlice data offset width).length < width := by
    rw [fileSlice_length]; omega
  simp only [readChecked]
  rw [if_pos hl]

/-- An unchecked reader raises on a short slice. -/
theorem dr_readExact_short (width : Nat) (data : List Nat) (offset : Nat)
    (hw : 0 < width) (h : data.length < offset + width) :
    dr_readExact width data offset = .error .structError := by
  have hl : (fileSlice data offset width).length < width := by
    rw [fileSlice_length]; omega
  simp only [dr_readExact]
  rw [if_neg (Nat.ne_of_lt hl)]

/-! ## Claim C4 -/

/-- C4 counterexample: on an empty file at offset 0 the
`DumpFileReader` 32-bit read does not return 0; it raises
`struct.error` (the source unpacks without a length check), refuting
the claim for that reader. -/
theorem C4_counterexample :
    dr_read_uint32 ([] : List Nat) 0 = .error .structError ∧
    dr_read_uint32 ([] : List Nat) 0 ≠ .ok 0 := by
  refine ⟨rfl, ?_⟩
  simp [dr_read_uint32, dr_readExact, fileSlice]

/-- C4 (amended): the `StackTraceParser` and `DriverListExtractor`
readers return 0 whenever fewer bytes than the requested width remain
past the offset (and, being total functions, never raise); the
`DumpFileReader` readers instead raise `struct.error` in that
situation. -/
theorem C4_short_reads (data : List Nat) (offset : Nat) :
    (data.length < offset + 8 →
      st_read_uint64 data offset = 0 ∧ drv_read_uint64 data offset = 0 ∧
      dr_read_uint64 data offset = .error .structError) ∧
    (data.length < offset + 4 →
      st_read_uint32 data offset = 0 ∧ drv_read_uint32 data offset = 0 ∧
      dr_read_uint32 data offset = .error .structError) ∧
    (data.length < offset + 2 →
      drv_read_uint16 data offset = 0 ∧
      dr_read_uint16 data offset = .error .structError) := by
  refine ⟨fun h => ⟨?_, ?_, ?_⟩, fun h => ⟨?_, ?_, ?_⟩, fun h => ⟨?_, ?_⟩⟩
  · exact readChecked_short 8 data offset (by omega) h
  · exact readChecked_short 8 data offset (by omega) h
  · exact dr_readExact_short 8 data offset (by omega) h
  · exact readChecked_short 4 data offset (by omega) h
  · exact readChecked_short 4 data offset (by omega) h
  · exact dr_readExact_short 4 data offset (by omega) h
  · exact readChecked_short 2 data offset (by omega) h
  · exact dr_readExact_short 2 data offset (by omega) h

/-- C4 witness: the amended statement at the empty file and offset 0. -/
theorem C4_witness :
    st_read_uint64 ([] : List Nat) 0 = 0 ∧
    st_read_uint32 ([] : List Nat) 0 = 0 ∧
    drv_read_uint16 ([] : List Nat) 0 = 0 ∧
    dr_read_uint16 ([] : List Nat) 0 = .error .structError := by
  refine ⟨((C4_short_reads [] 0).1 (by decide)).1,
    ((C4_short_reads [] 0).2.1 (by decide)).1,
    ((C4_short_reads [] 0).2.2 (by decide)).1,
    ((C4_short_reads [] 0).2.2 (by decide)).2⟩

/-! ## Claim C6 -/

/-- C6: the orchestrator returns `success = false` exactly for a
missing input path, with the documented error string, all five optional
sections absent, and no archive emitted; every existing input yields
`success = true` (and, with `create_zip`, an emitted archive). -/
theorem C6_success_condition (path : String) (data : List Nat) :
    ((analyze none path).success = false ∧
     (analyze none path).error = some ("Dump file not found: " ++ path) ∧
     (analyze none path).system_info = none ∧
     (analyze none path).crash_summary = none ∧
     (analyze none path).bugcheck_analysis = none ∧
     (analyze none path).stack_trace = none ∧
     (analyze none path).drivers = none ∧
     (analyze_dump none path true).2 = false) ∧
    ((analyze (some data) path).success = true ∧
     (analyze_dump (some data) path true).2 = true) := by
  refine ⟨⟨rfl, rfl, rfl, rfl, rfl, rfl, rfl, ?_⟩, rfl, ?_⟩
  · simp [analyze_dump, analyze]
  · simp [analyze_dump, analyze]

/-! ## Claim C8 -/

/-- C8: analyzing bug-check 0x1A with first parameter 0x00041790 yields
category "Memory Corruption", severity "High", the documented
parameter-1 interpretation, and recommendations beginning with the
memory-diagnostic entry. -/
theorem C8_memory_management :
    (analyze_bugcheck 0x1A 0x41790 0 0 0).category = "Memory Corruption" ∧
    (analyze_bugcheck 0x1A 0x41790 0 0 0).severity = "High" ∧
    ((analyze_bugcheck 0x1A 0x41790 0 0 0).parameters.map
        (·.interpretation)).getD 0 none =
      some "The page frame number list is corrupt." ∧
    (analyze_bugcheck 0x1A 0x41790 0 0 0).recommendations ≠ [] ∧
    (analyze_bugcheck 0x1A 0x41790 0 0 0).recommendations.getD 0 "" =
      "Run Windows Memory Diagnostic (mdsched.exe)" := by
  refine ⟨?_, ?_, ?_, ?_, ?_⟩ <;> decide

/-! ## Claims C1 and C10 -/

/-- Unfolding of `parse_exception`: the raw count word and the
conditional parameter loop. -/
theorem parse_exception_spec (data : List Nat) :
    (parse_exception data).num_parameters =
      st_read_uint32 data
        (EXCEPTION_RECORD_OFFSET_IN_HEADER + EXCEPTION_NUM_PARAMS_OFFSET) ∧
    (parse_exception data).parameters =
      (if 0 < (parse_exception data).num_parameters ∧
          (parse_exception data).num_parameters ≤ 15 then
        (List.range (parse_exception data).num_parameters).map
          (fun i => st_read_uint64 data
            (EXCEPTION_RECORD_OFFSET_IN_HEADER + EXCEPTION_PARAMS_OFFSET + i * 8))
      else []) :=
  ⟨rfl, rfl⟩

/-- C1 counterexample: a file whose exception code is non-zero and whose
raw parameter-count word is 16 produces a record with
`parameter_count = 16` (not clamped to 15) and an empty parameters list
(so `len(parameters) ≠ parameter_count`), refuting the claim. -/
theorem C1_counterexample :
    (parse_exception dataBigCount).exception_code ≠ 0 ∧
    ¬((parse_exception dataBigCount).num_parameters ≤ 15) ∧
    (parse_exception dataBigCount).parameters.length ≠
      (parse_exception dataBigCount).num_parameters := by
  refine ⟨?_, ?_, ?_⟩ <;> decide

/-- C1 (amended): the produced record stores the raw count word without
clamping; `len(parameters) = parameter_count` holds exactly when the raw
count is at most 15, and a raw count above 15 yields an empty parameters
list (and no note is added). -/
theorem C1_count_behaviour (data : List Nat)
    (hcode : (parse_exception data).exception_code ≠ 0) :
    (parse_exception data).num_parameters =
      st_read_uint32 data
        (EXCEPTION_RECORD_OFFSET_IN_HEADER + EXCEPTION_NUM_PARAMS_OFFSET) ∧
    ((parse_exception data).num_parameters ≤ 15 →
      (parse_exception data).parameters.length =
        (parse_exception data).num_parameters) ∧
    (15 < (parse_exception data).num_parameters →
      (parse_exception data).parameters = []) := by
  obtain ⟨h1, h2⟩ := parse_exception_spec data
  refine ⟨h1, ?_, ?_⟩
  · intro h15
    rw [h2]
    by_cases h0 : 0 < (parse_exception data).num_parameters
    · rw [if_pos ⟨h0, h15⟩]
      simp
    · rw [if_neg (by tauto)]
      simp
      omega
  · intro h15
    rw [h2, if_neg (by omega)]

/-- C1 witness: the amended statement evaluated on a file with exception
code 5 and raw count 2. -/
theorem C1_witness :
    (parse_exception dataTwoParams).exception_code ≠ 0 ∧
    (parse_exception dataTwoParams).num_parameters ≤ 15 ∧
    (parse_exception dataTwoParams).parameters.length =
      (parse_exception dataTwoParams).num_parameters :=
  ⟨by decide, by decide,
    (C1_count_behaviour dataTwoParams (by decide)).2.1 (by decide)⟩

/-- C10: when the exception code word is non-zero the stack trace
carries the parsed record; a raw count above 15 leaves the parameters
empty while the raw count is recorded, and a count in [1, 15] reads
exactly that many u64 parameters starting at exception base + 0x20. -/
theorem C10_parameter_loop (data : List Nat)
    (hcode : (parse_exception data).exception_code ≠ 0) :
    (parse_stack_trace data).exception = some (parse_exception data) ∧
    (15 < (parse_exception data).num_parameters →
      (parse_exception data).parameters = []) ∧
    (∀ n, (parse_exception data).num_parameters = n → 1 ≤ n → n ≤ 15 →
      (parse_exception data).parameters.length = n ∧
      ∀ i, i < n →
        (parse_exception data).parameters.getD i 0 =
          st_read_uint64 data
            (EXCEPTION_RECORD_OFFSET_IN_HEADER + EXCEPTION_PARAMS_OFFSET + i * 8)) := by
  obtain ⟨h1, h2⟩ := parse_exception_spec data
  refine ⟨?_, ?_, ?_⟩
  · simp only [parse_stack_trace]
    rw [if_pos hcode]
  · intro h15
    rw [h2, if_neg (by omega)]
  · intro n hn h1n h15
    subst hn
    rw [h2, if_pos ⟨by omega, h15⟩]
    refine ⟨by simp, ?_⟩
    intro i hi
    rw [List.getD_eq_getElem?_getD]
    simp [hi]

/-- C10 witness: the statement evaluated on a file with exception code
5, count 2, and parameters 7 and 9. -/
theorem C10_witness :
    (parse_exception dataTwoParams).exception_code ≠ 0 ∧
    (parse_stack_trace dataTwoParams).exception =
      some (parse_exception dataTwoParams) ∧
    (parse_exception dataTwoParams).parameters.length = 2 ∧
    (parse_exception dataTwoParams).parameters.getD 0 0 =
      st_read_uint64 dataTwoParams
        (EXCEPTION_RECORD_OFFSET_IN_HEADER + EXCEPTION_PARAMS_OFFSET) :=
  ⟨by decide,
   (C10_parameter_loop dataTwoParams (by decide)).1,
   ((C10_parameter_loop dataTwoParams (by decide)).2.2 2 (by decide)
      (by decide) (by decide)).1,
   by simpa using
     ((C10_parameter_loop dataTwoParams (by decide)).2.2 2 (by decide)
        (by decide) (by decide)).2 0 (by decide)⟩

/-! ## Claim C5 -/

/-- C5 counterexample: a file with a zero context-flags word but a
non-zero RSP word yields `has_context = false` and absent registers, yet
`stack_pointer` is populated with the raw RSP word (0x42), refuting the
claim that it stays zero. -/
theorem C5_counterexample :
    st_read_uint32 dataZeroFlags
      (CONTEXT_RECORD_OFFSET_IN_HEADER + CONTEXT_FLAGS_OFFSET) = 0 ∧
    st_read_uint64 dataZeroFlags
      (CONTEXT_RECORD_OFFSET_IN_HEADER + CONTEXT_RSP_OFFSET) = 0x42 ∧
    (parse_stack_trace dataZeroFlags).has_context = false ∧
    (parse_stack_trace dataZeroFlags).registers = none ∧
    (parse_stack_trace dataZeroFlags).stack_pointer = 0x42 ∧
    (parse_stack_trace dataZeroFlags).stack_pointer ≠ 0 := by
  refine ⟨?_, ?_, ?_, ?_, ?_, ?_⟩ <;> decide

/-- C5 (amended): with a zero context-flags word the trace reports
`has_context = false` and absent registers, but `stack_pointer` and
`instruction_pointer` are still copied from the raw RSP / RIP register
words (the copy does not depend on the flags). -/
theorem C5_zero_flags (data : List Nat)
    (hflags : (parse_registers data).context_flags = 0) :
    (parse_stack_trace data).has_context = false ∧
    (parse_stack_trace data).registers = none ∧
    (parse_stack_trace data).stack_pointer = (parse_registers data).rsp ∧
    (parse_stack_trace data).instruction_pointer = (parse_registers data).rip := by
  refine ⟨?_, ?_, rfl, rfl⟩ <;> simp [parse_stack_trace, hflags]

/-- C5 witness: the amended statement on the zero-flags file. -/
theorem C5_witness :
    (parse_registers dataZeroFlags).context_flags = 0 ∧
    (parse_registers dataZeroFlags).rsp = 0x42 ∧
    (parse_stack_trace dataZeroFlags).registers = none ∧
    (parse_stack_trace dataZeroFlags).stack_pointer =
      (parse_registers dataZeroFlags).rsp :=
  ⟨by decide, by decide, (C5_zero_flags dataZeroFlags (by decide)).2.1,
    (C5_zero_flags dataZeroFlags (by decide)).2.2.1⟩

/-! ## Claim C2 -/

/-- Fields of a successfully parsed header: the variant flag and the two
derived offsets. -/
theorem parse_header_body_fields (data : List Nat) (is64 : Bool)
    (h : DumpHeader) (hok : parse_header_body data is64 = .ok h) :
    h.is_64bit = is64 ∧
    h.exception_record_offset = (if is64 then 0x0F00 else 0x07D0) ∧
    h.physical_memory_block_offset = (if is64 then 0x0088 else 0x0064) := by
  unfold parse_header_body at hok
  simp only [bind, Except.bind, pure, Except.pure] at hok
  repeat' split at hok
  all_goals simp_all
  all_goals (obtain rfl := hok.symm; simp)

/-- C2 counterexample: a 64-bit (`PAGEDU64`) dump whose derived
`exception_record_offset` is 0x0F00, not 0x348 as claimed. -/
theorem C2_counterexample :
    validate_signature data64 = some true ∧
    (parse_header data64).toOption.map (fun hh => hh.exception_record_offset) =
      some 0x0F00 ∧
    (0x0F00 : Nat) ≠ 0x348 := by
  refine ⟨by decide, by decide, by decide⟩

/-- C2 (amended): the derived `DumpHeader.exception_record_offset` is
0x0F00 for 64-bit dumps and 0x07D0 for 32-bit dumps, while the
context/exception decoder reads the exception record at the hard-coded
base 0x348 for every variant. -/
theorem C2_exception_record_offsets (data : List Nat) (h : DumpHeader)
    (hok : parse_header data = .ok h) :
    (h.is_64bit = true → h.exception_record_offset = 0x0F00) ∧
    (h.is_64bit = false → h.exception_record_offset = 0x07D0) ∧
    EXCEPTION_RECORD_OFFSET_IN_HEADER = 0x348 ∧
    (parse_exception data).exception_code =
      st_read_uint32 data (EXCEPTION_RECORD_OFFSET_IN_HEADER + EXCEPTION_CODE_OFFSET) := by
  unfold parse_header at hok
  cases hv : validate_signature data with
  | none => rw [hv] at hok; exact absurd hok (by simp)
  | some is64 =>
    rw [hv] at hok
    obtain ⟨h64, hoff, _⟩ := parse_header_body_fields data is64 h hok
    subst h64
    refine ⟨fun ht => ?_, fun hf => ?_, rfl, rfl⟩
    · rw [hoff, if_pos ht]
    · rw [hoff, if_neg (by simp [hf])]

/-- C2 witness: the amended statement on the concrete `PAGEDU64` file. -/
theorem C2_witness :
    ∃ h : DumpHeader, parse_header data64 = .ok h ∧
      h.is_64bit = true ∧ h.exception_record_offset = 0x0F00 := by
  have hb : (parse_header data64).toOption.map (fun x => x.is_64bit) = some true := by
    decide
  obtain ⟨h, hh⟩ : ∃ h, parse_header data64 = .ok h := by
    rcases hph : parse_header data64 with e | h
    · exfalso; rw [hph] at hb; simp [Except.toOption] at hb
    · exact ⟨h, rfl⟩
  have h64 : h.is_64bit = true := by
    rw [hh] at hb; simpa [Except.toOption] using hb
  exact ⟨h, hh, h64, (C2_exception_record_offsets data64 h hh).1 h64⟩

/-! ## Claim C3 -/

/-- C3 counterexample: the existing readable eight-byte file `notadump`
(neither signature) yields `success = true` with the three optional
sections absent, but its `parser_notes` has three entries (header
failure, limited stack trace, empty driver scan), not exactly one. -/
theorem C3_counterexample :
    (analyze (some dataNotADump) "crash.dmp").success = true ∧
    (analyze (some dataNotADump) "crash.dmp").system_info = none ∧
    (analyze (some dataNotADump) "crash.dmp").crash_summary = none ∧
    (analyze (some dataNotADump) "crash.dmp").bugcheck_analysis = none ∧
    (analyze (some dataNotADump) "crash.dmp").metadata.parser_notes =
      [NOTE_HEADER_FAILED, NOTE_STACK_LIMITED, NOTE_DRIVERS] ∧
    (analyze (some dataNotADump) "crash.dmp").metadata.parser_notes.length ≠ 1 := by
  refine ⟨?_, ?_, ?_, ?_, ?_, ?_⟩ <;> decide

/-- C3 (amended): for every existing file whose first 8 bytes match
neither signature, the analysis has `success = true`, `system_info`,
`crash_summary` and `bugcheck_analysis` all absent, and `parser_notes`
contains the header-failure entry exactly once (further notes about the
stack trace and the driver scan may follow it). -/
theorem C3_invalid_signature (data : List Nat) (path : String)
    (h64 : fileSlice data 0 8 ≠ DUMP_SIGNATURE_64)
    (h32 : fileSlice data 0 8 ≠ DUMP_SIGNATURE_32) :
    (analyze (some data) path).success = true ∧
    (analyze (some data) path).system_info = none ∧
    (analyze (some data) path).crash_summary = none ∧
    (analyze (some data) path).bugcheck_analysis = none ∧
    (analyze (some data) path).metadata.parser_notes.count NOTE_HEADER_FAILED = 1 ∧
    1 ≤ (analyze (some data) path).metadata.parser_notes.length := by
  have hv : validate_signature data = none := by
    simp only [validate_signature]
    rw [if_neg h64, if_neg h32]
  have hp : parse_header data = .error .invalidSignature := by
    simp only [parse_header, hv]
  refine ⟨rfl, ?_, ?_, ?_, ?_, ?_⟩ <;>
    simp only [analyze, hp] <;>
    split <;>
    split <;>
    decide

/-- C3 witness: the amended statement on the `notadump` file. -/
theorem C3_witness :
    fileSlice dataNotADump 0 8 ≠ DUMP_SIGNATURE_64 ∧
    fileSlice dataNotADump 0 8 ≠ DUMP_SIGNATURE_32 ∧
    (analyze (some dataNotADump) "a.dmp").success = true ∧
    (analyze (some dataNotADump) "a.dmp").system_info = none ∧
    (analyze (some dataNotADump) "a.dmp").metadata.parser_notes.count
      NOTE_HEADER_FAILED = 1 :=
  ⟨by decide, by decide,
   (C3_invalid_signature dataNotADump "a.dmp" (by decide) (by decide)).1,
   (C3_invalid_signature dataNotADump "a.dmp" (by decide) (by decide)).2.1,
   (C3_invalid_signature dataNotADump "a.dmp" (by decide) (by decide)).2.2.2.2.1⟩

/-! ## Claim C9 -/

/-- Every rendered digit block has exactly the requested width. -/
theorem hexPadChars_length (n w : Nat) : (hexPadChars n w).length = w := by
  induction w generalizing n with
  | zero => rfl
  | succ k ih => simp [hexPadChars, ih]

/-- `hexPad w n` always has length `w`. -/
theorem hexPad_length (w n : Nat) : (hexPad w n).length = w := by
  simp [hexPad, String.length, hexPadChars_length]

/-- C9: for every bug-check code outside all curated tables the analysis
is still complete: generic name (beginning `UNKNOWN_BUGCHECK_`),
category "Other", severity "Medium", the non-empty generic cause and
recommendation lists, and all four parameters rendered as 18-character
zero-padded hex strings. -/
theorem C9_unknown_code (code p1 p2 p3 p4 : Nat)
    (hname : BUGCHECK_CODES.lookup code = none)
    (hcat : ∀ p ∈ BUGCHECK_CATEGORIES, p.2.contains code = false)
    (hcrit : SEVERITY_CRITICAL.contains code = false)
    (hhigh : SEVERITY_HIGH.contains code = false)
    (hcauses : BUGCHECK_CAUSES.lookup code = none)
    (hrecs : BUGCHECK_RECS.lookup code = none) :
    (analyze_bugcheck code p1 p2 p3 p4).name =
      "UNKNOWN_BUGCHECK_" ++ format_bugcheck_code code ∧
    (analyze_bugcheck code p1 p2 p3 p4).category = "Other" ∧
    (analyze_bugcheck code p1 p2 p3 p4).severity = "Medium" ∧
    (analyze_bugcheck code p1 p2 p3 p4).likely_causes = GENERIC_CAUSES ∧
    (analyze_bugcheck code p1 p2 p3 p4).recommendations = GENERIC_RECS ∧
    GENERIC_CAUSES ≠ [] ∧ GENERIC_RECS ≠ [] ∧
    (analyze_bugcheck code p1 p2 p3 p4).parameters.map (·.hex_value) =
      [p1, p2, p3, p4].map (fun v => "0x" ++ hexPad 16 v) ∧
    ∀ p ∈ (analyze_bugcheck code p1 p2 p3 p4).parameters,
      p.hex_value.length = 18 := by
  have hfind : BUGCHECK_CATEGORIES.find? (fun p => p.2.contains code) = none := by
    rw [List.find?_eq_none]
    intro x hx
    simpa using hcat x hx
  have hcritm : code ∉ SEVERITY_CRITICAL := by simpa using hcrit
  have hhighm : code ∉ SEVERITY_HIGH := by simpa using hhigh
  refine ⟨?_, ?_, ?_, ?_, ?_, by decide, by decide, ?_, ?_⟩
  · simp [analyze_bugcheck, get_bugcheck_name, hname]
  · show get_category code = "Other"
    unfold get_category
    rw [hfind]
  · simp [analyze_bugcheck, get_severity, hcritm, hhighm]
  · simp [analyze_bugcheck, get_likely_causes, hcauses]
  · simp [analyze_bugcheck, get_recommendations, hrecs]
  · rfl
  · intro p hp
    simp only [analyze_bugcheck, analyze_parameters, List.map_cons, List.map_nil,
      List.mem_cons, List.not_mem_nil, or_false] at hp
    rcases hp with rfl | rfl | rfl | rfl <;>
      simp [String.length_append, hexPad_length] <;> decide

/-- C9 witness: the statement evaluated at the unknown code
0xDEADBEEF. -/
theorem C9_witness :
    (analyze_bugcheck 0xDEADBEEF 0 0 0 0).name =
      "UNKNOWN_BUGCHECK_" ++ format_bugcheck_code 0xDEADBEEF ∧
    (analyze_bugcheck 0xDEADBEEF 0 0 0 0).category = "Other" ∧
    (analyze_bugcheck 0xDEADBEEF 0 0 0 0).severity = "Medium" ∧
    (analyze_bugcheck 0xDEADBEEF 0 0 0 0).likely_causes = GENERIC_CAUSES ∧
    (analyze_bugcheck 0xDEADBEEF 0 0 0 0).recommendations = GENERIC_RECS := by
  obtain ⟨h1, h2, h3, h4, h5, _⟩ :=
    C9_unknown_code 0xDEADBEEF 0 0 0 0 (by decide) (by decide) (by decide)
      (by decide) (by decide) (by decide)
  exact ⟨h1, h2, h3, h4, h5⟩

/-! ## Claim C7 -/

/-- A scan step never removes a recovered name. -/
theorem scanStep_mem (w : List Nat) (st : List DriverInfo) (i : Nat)
    (x : String) (hx : x ∈ st.map (·.name)) :
    x ∈ (scanStep w st i).map (·.name) := by
  unfold scanStep
  repeat' split
  all_goals simp_all [List.map_append]

/-- The canonical record keeps its name. -/
theorem mkScanDriver_name (nm : String) : (mkScanDriver nm).name = nm := rfl

/-- The recovered names stay pairwise distinct across a scan step. -/
theorem scanStep_nodup (w : List Nat) (st : List DriverInfo) (i : Nat)
    (h : (st.map (·.name)).Nodup) :
    ((scanStep w st i).map (·.name)).Nodup := by
  unfold scanStep
  repeat' split
  all_goals
    simp_all [List.map_append, mkScanDriver_name, List.nodup_append,
      List.disjoint_singleton, List.mem_map]

/-- Every entry the scan produces is the canonical record built from its
name. -/
theorem scanStep_canon (w : List Nat) (st : List DriverInfo) (i : Nat)
    (h : ∀ d ∈ st, d = mkScanDriver d.name) :
    ∀ d ∈ scanStep w st i, d = mkScanDriver d.name := by
  unfold scanStep
  repeat' split
  all_goals intro d hd
  all_goals
    first
      | exact h d hd
      | (rcases List.mem_append.mp hd with h1 | h1
         · exact h d h1
         · simp only [List.mem_singleton] at h1
           subst h1
           rfl)

/-- A matching position puts its recovered name into the state. -/
theorem scanStep_adds (w : List Nat) (st : List DriverInfo) (i : Nat)
    (nm : String)
    (hm : fileSlice w i 4 = SYS_BYTES)
    (h3 : 3 ≤ i - nameStart w i)
    (hdec : decodeAsciiStrict
      (fileSlice w (nameStart w i) (i + 4 - nameStart w i)) = some nm)
    (hne : nm ≠ "") (hdot : strStartsWith nm "." = false) :
    nm ∈ (scanStep w st i).map (·.name) := by
  unfold scanStep
  rw [if_pos hm, if_pos h3]
  split
  case h_2 heq => rw [hdec] at heq; exact absurd heq (by simp)
  case h_1 name heq =>
    rw [hdec] at heq
    obtain rfl := Option.some.inj heq
    by_cases hc : (st.map (·.name)).contains nm
    · have hmem : nm ∈ st.map (·.name) := by simpa using hc
      rw [if_neg (fun hcond => hcond.2.1 hc)]
      exact hmem
    · rw [if_pos ⟨hne, hc, by simp [hdot]⟩]
      exact List.mem_map.mpr ⟨mkScanDriver nm, by simp, rfl⟩

/-- Once a position has added a name, the rest of the scan keeps it. -/
theorem scan_foldl_mem (w : List Nat) (nm : String) (i : Nat)
    (hadd : ∀ st, nm ∈ (scanStep w st i).map (·.name)) :
    ∀ m, i < m →
      nm ∈ (((List.range m).foldl (scanStep w) []).map (·.name)) := by
  intro m
  induction m with
  | zero => intro him; omega
  | succ k ih =>
    intro him
    rw [List.range_succ, List.foldl_append, List.foldl_cons, List.foldl_nil]
    rcases Nat.lt_succ_iff_lt_or_eq.mp him with hlt | heq
    · exact scanStep_mem _ _ _ _ (ih hlt)
    · subst heq; exact hadd _

/-- The whole scan produces pairwise distinct names. -/
theorem scan_foldl_nodup (w : List Nat) (m : Nat) :
    ((((List.range m).foldl (scanStep w) []).map (·.name))).Nodup := by
  induction m with
  | zero => simp
  | succ k ih =>
    rw [List.range_succ, List.foldl_append, List.foldl_cons, List.foldl_nil]
    exact scanStep_nodup _ _ _ ih

/-- Every record of the whole scan is canonical for its name. -/
theorem scan_foldl_canon (w : List Nat) (m : Nat) :
    ∀ d ∈ (List.range m).foldl (scanStep w) [], d = mkScanDriver d.name := by
  induction m with
  | zero => simp
  | succ k ih =>
    rw [List.range_succ, List.foldl_append, List.foldl_cons, List.foldl_nil]
    exact scanStep_canon _ _ _ ih

/-- C7 (amended): the scavenger only visits indices below
`window length - 100`; within that range, every `.sys` hit whose
backward walk recovers at least three name bytes, decodes as ASCII, and
does not start with a dot contributes its recovered name exactly once
(case-sensitive deduplication), as the canonical classified record. -/
theorem C7_scavenger (data : List Nat) (i : Nat) (nm : String)
    (hi : i < (data.take 8192).length - 100)
    (hm : fileSlice (data.take 8192) i 4 = SYS_BYTES)
    (h3 : 3 ≤ i - nameStart (data.take 8192) i)
    (hdec : decodeAsciiStrict
      (fileSlice (data.take 8192) (nameStart (data.take 8192) i)
        (i + 4 - nameStart (data.take 8192) i)) = some nm)
    (hdot : strStartsWith nm "." = false) :
    ((extract_drivers data).drivers.map (·.name)).count nm = 1 ∧
    mkScanDriver nm ∈ (extract_drivers data).drivers ∧
    1 ≤ (extract_drivers data).total_count := by
  have hslice :
      (fileSlice (data.take 8192) (nameStart (data.take 8192) i)
        (i + 4 - nameStart (data.take 8192) i)).length ≠ 0 := by
    rw [fileSlice_length]
    omega
  have hne : nm ≠ "" := by
    intro h0
    subst h0
    unfold decodeAsciiStrict at hdec
    split at hdec
    · have hmk := Option.some.inj hdec
      have hlen := congrArg (fun s => s.data.length) hmk
      simp at hlen
      exact hslice (by simpa using hlen)
    · exact Option.noConfusion hdec
  have hadd : ∀ st, nm ∈ (scanStep (data.take 8192) st i).map (·.name) :=
    fun st => scanStep_adds (data.take 8192) st i nm hm h3 hdec hne hdot
  have hmem : nm ∈
      (((List.range ((data.take 8192).length - 100)).foldl
        (scanStep (data.take 8192)) []).map (·.name)) :=
    scan_foldl_mem (data.take 8192) nm i hadd _ hi
  have hLe : extract_drivers_from_strings data =
      (List.range ((data.take 8192).length - 100)).foldl
        (scanStep (data.take 8192)) [] := rfl
  rw [← hLe] at hmem
  have hnd : ((extract_drivers_from_strings data).map (·.name)).Nodup := by
    rw [hLe]; exact scan_foldl_nodup _ _
  have hcanon : ∀ d ∈ extract_drivers_from_strings data,
      d = mkScanDriver d.name := by
    rw [hLe]; exact scan_foldl_canon _ _
  have hLne : extract_drivers_from_strings data ≠ [] := by
    intro h0
    rw [h0] at hmem
    simp at hmem
  have hdrv : (extract_drivers data).drivers =
      extract_drivers_from_strings data := by
    simp only [extract_drivers]
    rw [if_neg hLne]
  have htot : (extract_drivers data).total_count =
      (extract_drivers_from_strings data).length := by
    simp only [extract_drivers]
    rw [if_neg hLne]
  refine ⟨?_, ?_, ?_⟩
  · rw [hdrv]
    exact List.count_eq_one_of_mem hnd hmem
  · rw [hdrv]
    obtain ⟨d, hd, hdn⟩ := List.mem_map.mp hmem
    have hc := hcanon d hd
    rw [hdn] at hc
    rw [← hc]
    exact hd
  · rw [htot]
    have : extract_drivers_from_strings data ≠ [] := hLne
    have hlen : (extract_drivers_from_strings data).length ≠ 0 := by
      simpa [List.length_eq_zero] using this
    omega

/-- C7 counterexample: a 104-byte file whose `.sys` occurrence begins at
offset 4 = length - 100, preceded by three printable bytes and a
non-printable byte, with recovered name `abc.sys`; the scan loop stops
before that index, so the summary is empty, refuting the claim for
arbitrary offsets inside the 8 KiB window. -/
theorem C7_counterexample :
    fileSlice (dataSysAtEnd.take 8192) 4 4 = SYS_BYTES ∧
    nameStart (dataSysAtEnd.take 8192) 4 = 1 ∧
    printableByte (dataSysAtEnd.getD 0 0) = false ∧
    decodeAsciiStrict (fileSlice (dataSysAtEnd.take 8192) 1 7) =
      some "abc.sys" ∧
    (strStartsWith "abc.sys" ".") = false ∧
    (extract_drivers dataSysAtEnd).drivers = [] ∧
    (extract_drivers dataSysAtEnd).total_count = 0 := by
  refine ⟨?_, ?_, ?_, ?_, ?_, ?_, ?_⟩ <;> decide

/-- C7 witness: the amended statement on a file carrying
`nvlddmkm.sys`, whose classified record is problematic with the
reputation-table reason. -/
theorem C7_witness :
    ((extract_drivers dataNvidia).drivers.map (·.name)).count
      "nvlddmkm.sys" = 1 ∧
    mkScanDriver "nvlddmkm.sys" ∈ (extract_drivers dataNvidia).drivers ∧
    1 ≤ (extract_drivers dataNvidia).total_count ∧
    (mkScanDriver "nvlddmkm.sys").is_problematic = true ∧
    (mkScanDriver "nvlddmkm.sys").problematic_reason =
      some "NVIDIA Display Driver - common crash source" := by
  obtain ⟨h1, h2, h3⟩ :=
    C7_scavenger dataNvidia 9 "nvlddmkm.sys" (by decide) (by decide)
      (by decide) (by decide) (by decide)
  exact ⟨h1, h2, h3, by decide, by decide⟩
